import Mathlib

/-!
A shallow embedding of the Ansible module
`plugins/modules/clustering/pacemaker_cluster.py`, together with proofs
about its behaviour.

Commands issued through `module.run_command` are modelled by a `World`
mapping the index of each successive call to the `(rc, out, err)` triple
that the command returns.  `module.exit_json`, `module.fail_json` and
uncaught Python exceptions are terminal events of a run.  The wall-clock
polling loops (`while time.time() < t + timeout`) are modelled by an
iteration budget: `World.pollBudget n` is the number of probe iterations
the wall clock permits before the deadline of the n-th polling loop of
the run passes (zero iterations when `timeout <= 0`, since then the
loop condition is false at once).
-/

namespace PacemakerCluster

/-- Python semantics helper: `str.split(sep)` for a one-character
separator, splitting at every occurrence and keeping empty pieces. -/
def splitChar (sep : Char) : List Char → List String
  | [] => [""]
  | c :: rest =>
    if c == sep then "" :: splitChar sep rest
    else
      match splitChar sep rest with
      | [] => [String.mk [c]]
      | h :: t => String.mk (c :: h.data) :: t

/-- Python semantics helper: `str.splitlines()` for LF-separated text
(the command outputs modelled here use only the LF separator). -/
def splitlines (s : String) : List String :=
  match s.data with
  | [] => []
  | l =>
    if l.getLast? == some '\n' then (splitChar '\n' l).dropLast
    else splitChar '\n' l

/-- Python semantics helper: `str.strip()`, removing whitespace from
both ends. -/
def pyStrip (s : String) : String :=
  String.mk (((s.data.dropWhile Char.isWhitespace).reverse.dropWhile
      Char.isWhitespace).reverse)

/-- Python semantics helper: `str.lower()`. -/
def pyLower (s : String) : String :=
  String.mk (s.data.map Char.toLower)

/-- Whether the first character list starts the second. -/
def startsList (a : List Char) : List Char → Bool :=
  fun b =>
    match a, b with
    | [], _ => true
    | _ :: _, [] => false
    | x :: xs, y :: ys => x == y && startsList xs ys

/-- Whether the first character list occurs contiguously in the second. -/
def occursIn (a : List Char) : List Char → Bool
  | [] => a.isEmpty
  | y :: ys => startsList a (y :: ys) || occursIn a ys

/-- Python semantics helper: the substring test `a in b` on strings. -/
def pyIn (a b : String) : Bool :=
  occursIn a.data b.data

/-- The module-level constant `_PCS_CLUSTER_DOWN`. -/
def PCS_CLUSTER_DOWN : String :=
  "Error: cluster is not currently running on this node"

/-- The `(rc, out, err)` triple returned by `module.run_command`. -/
structure CmdResult where
  rc : Int
  out : String
  err : String
deriving Repr, DecidableEq

/-- The external world: responses to successive `run_command` calls and
the wall-clock iteration budgets of the successive polling loops. -/
structure World where
  resp : Nat → CmdResult
  pollBudget : Nat → Nat

/-- Execution state of one module run: how many commands were issued,
the commands issued so far (in order), and how many polling loops have
started. -/
structure St where
  idx : Nat
  log : List String
  loops : Nat
deriving Repr, DecidableEq

/-- Initial execution state. -/
def initSt : St := ⟨0, [], 0⟩

/-- The value passed as `out=` to `module.exit_json`: either the cluster
status string or the parsed node-status row list. -/
inductive OutVal where
  | str : String → OutVal
  | rows : List (List String) → OutVal
deriving Repr, DecidableEq

/-- Terminal events of a module run. -/
inductive Outcome where
  | exitJson : Bool → OutVal → Outcome
  | failJson : String → Outcome
  | pyError : String → Outcome
deriving Repr, DecidableEq

/-- The embedding monad: state-passing over `St`, short-circuiting on a
terminal event. -/
def M (α : Type) : Type :=
  St → Except Outcome α × St

/-- Bind of `M`. -/
def mBind {α β : Type} (x : M α) (f : α → M β) : M β :=
  fun s =>
    match x s with
    | (Except.ok a, s1) => f a s1
    | (Except.error e, s1) => (Except.error e, s1)

/-- Pure of `M`. -/
def mPure {α : Type} (a : α) : M α :=
  fun s => (Except.ok a, s)

instance instMonadM : Monad M where
  pure := mPure
  bind := mBind

/-- `module.run_command cmd`: logs the command and consumes the next
response of the world. -/
def runC (w : World) (cmd : String) : M CmdResult :=
  fun s => (Except.ok (w.resp s.idx), ⟨s.idx + 1, s.log ++ [cmd], s.loops⟩)

/-- `module.exit_json(changed=…, out=…)`. -/
def exitJ {α : Type} (changed : Bool) (out : OutVal) : M α :=
  fun s => (Except.error (Outcome.exitJson changed out), s)

/-- `module.fail_json(msg=…)`. -/
def failJ {α : Type} (msg : String) : M α :=
  fun s => (Except.error (Outcome.failJson msg), s)

/-- An uncaught Python exception. -/
def pyErr {α : Type} (msg : String) : M α :=
  fun s => (Except.error (Outcome.pyError msg), s)

/-- List indexing `row[i]`: raises IndexError when out of range. -/
def pyIdx (row : List String) (i : Nat) : M String :=
  fun s =>
    match row.get? i with
    | some v => (Except.ok v, s)
    | none => (Except.error (Outcome.pyError "IndexError: list index out of range"), s)

/-- Entering a `while time.time() < t + timeout` loop: yields the number
of iterations the wall clock permits for this loop (none when
`timeout <= 0`) and counts the loop. -/
def newLoop (w : World) (timeout : Int) : M Nat :=
  fun s =>
    (Except.ok (if timeout ≤ 0 then 0 else w.pollBudget s.loops),
     ⟨s.idx, s.log, s.loops + 1⟩)

/-- The message format of `fail_json` after a failed `run_command`. -/
def cmdFailMsg (cmd err : String) : String :=
  "Command execution failed.\nCommand: `" ++ cmd ++ "`\nError: " ++ err

/-- The message format of `fail_json` when a convergence loop exceeds
its deadline. -/
def timeoutMsg (state : String) : String :=
  "Failed to set the state `" ++ state ++ "` on the cluster\n"

/-- The classification `get_cluster_status` applies to the probe output
(source lines 92-95): `offline` exactly when the output is contained in
the `_PCS_CLUSTER_DOWN` marker (the source tests `out in _PCS_CLUSTER_DOWN`). -/
def statusOf (out : String) : String :=
  if pyIn out PCS_CLUSTER_DOWN then "offline" else "online"

/-- `get_cluster_status` (source lines 89-95). -/
def get_cluster_status (w : World) : M String := do
  let r ← runC w "pcs cluster status"
  if pyIn r.out PCS_CLUSTER_DOWN then pure "offline" else pure "online"

/-- The parsing `get_node_status` applies to the command output (source
lines 122-125): one row per line, each line split at every colon. -/
def parseRows (out : String) : List (List String) :=
  (splitlines out).map (fun o => splitChar ':' o.data)

/-- `get_node_status` (source lines 114-125).  Note the source builds
the command `pcs cluster pcsd-status %s` when `node == 'all'` and the
bare `pcs cluster pcsd-status` otherwise, so a specific node is never
named in the probe command. -/
def get_node_status (w : World) (node : String) : M (List (List String)) := do
  let cmd := if node == "all" then "pcs cluster pcsd-status " ++ node
             else "pcs cluster pcsd-status"
  let r ← runC w cmd
  if r.rc == 1 then failJ (cmdFailMsg cmd r.err)
  else pure (parseRows r.out)

/-- `clean_cluster` (source lines 128-132); its `timeout` parameter is
unused in the source. -/
def clean_cluster (w : World) (_timeout : Int) : M Unit := do
  let r ← runC w "pcs resource cleanup"
  if r.rc == 1 then failJ (cmdFailMsg "pcs resource cleanup" r.err)
  else pure ()

/-- The polling loop of `set_cluster` (source lines 150-156): probe the
cluster each permitted iteration, stopping early on a match. -/
def set_cluster_poll (w : World) (state : String) : Nat → M Bool
  | 0 => pure false
  | n + 1 => do
    let cluster_state ← get_cluster_status w
    if cluster_state == state then pure true
    else set_cluster_poll w state n

/-- The dispatch-and-poll tail of `set_cluster` (source lines 146-158):
run the chosen command, fail on exit status 1, then poll until the
deadline and fail with the timeout message if the target state was
never observed. -/
def set_cluster_finish (w : World) (state : String) (timeout : Int)
    (cmd : String) : M Unit := do
  let r ← runC w cmd
  if r.rc == 1 then failJ (cmdFailMsg cmd r.err)
  else do
    let k ← newLoop w timeout
    let ready ← set_cluster_poll w state k
    if ready then pure ()
    else failJ (timeoutMsg state)

/-- `set_cluster` (source lines 135-158).  When `state` is neither
`online` nor `offline` the source never assigns `cmd`, so the dispatch
line raises NameError. -/
def set_cluster (w : World) (state : String) (timeout : Int) (force : Bool) : M Unit := do
  if state == "online" then do
    let current_status ← get_cluster_status w
    if current_status != state then do
      let _ ← runC w "pcs"
      pure ()
    else pure ()
  else pure ()
  let cmdOpt : Option String :=
    if state == "online" then some "pcs cluster start"
    else if state == "offline" then
      some (if force then "pcs cluster stop --force" else "pcs cluster stop")
    else none
  match cmdOpt with
  | none => pyErr "NameError: name cmd is not defined"
  | some cmd => set_cluster_finish w state timeout cmd

/-- The dispatch loop of `set_node` (source lines 169-175): one command
per row whose state field differs from the target; the source reassigns
`cmd = "%s %s" % (cmd, node[0].strip())`, so the accumulated command is
carried into later iterations. -/
def set_node_dispatch (w : World) (state : String) :
    List (List String) → String → M String
  | [], cmd => pure cmd
  | row :: rest, cmd => do
    let rowState ← pyIdx row 1
    if pyLower (pyStrip rowState) != state then do
      let rowName ← pyIdx row 0
      let cmd2 := cmd ++ " " ++ pyStrip rowName
      let r ← runC w cmd2
      if r.rc == 1 then failJ (cmdFailMsg cmd2 r.err)
      else set_node_dispatch w state rest cmd2
    else set_node_dispatch w state rest cmd

/-- The inner `for` scan of the `set_node` polling loop (source lines
180-184): stops at the first row whose state field matches. -/
def node_scan (state : String) : List (List String) → M Bool
  | [] => pure false
  | row :: rest => do
    let rowState ← pyIdx row 1
    if pyLower (pyStrip rowState) == state then pure true
    else node_scan state rest

/-- The polling loop body of `set_node` (source lines 179-184): each
permitted iteration re-probes `get_node_status(module)` (so with the
default node `'all'`) and scans the rows; the `break` leaves only the
inner `for`, so the `while` keeps running until the deadline. -/
def set_node_poll_loop (w : World) (state : String) :
    Nat → Bool → M Bool
  | 0, ready => pure ready
  | n + 1, ready => do
    let nodes_state ← get_node_status w "all"
    let found ← node_scan state nodes_state
    set_node_poll_loop w state n (ready || found)

/-- The polling phase of `set_node` (source lines 177-187). -/
def set_node_poll (w : World) (state : String) (timeout : Int) : M Unit := do
  let k ← newLoop w timeout
  let ready ← set_node_poll_loop w state k false
  if ready then pure ()
  else failJ (timeoutMsg state)

/-- `set_node` (source lines 161-187).  When `state` is neither
`online` nor `offline` the source never assigns `cmd` (NameError on
first use). -/
def set_node (w : World) (state : String) (timeout : Int) (force : Bool)
    (node : String) : M Unit := do
  let cmdOpt : Option String :=
    if state == "online" then some "pcs cluster start"
    else if state == "offline" then
      some (if force then "pcs cluster stop --force" else "pcs cluster stop")
    else none
  match cmdOpt with
  | none => pyErr "NameError: name cmd is not defined"
  | some cmd => do
    let nodes_state ← get_node_status w node
    let _ ← set_node_dispatch w state nodes_state cmd
    set_node_poll w state timeout

/-- Python `dict(**kwargs)`: always succeeds with the keyword mapping. -/
def pyDictCall (kwargs : List (String × String)) :
    Except String (List (String × String)) :=
  Except.ok kwargs

/-- The Python builtin `list(*args, **kwargs)`: `list` accepts no
keyword arguments, so any keyword argument raises TypeError. -/
def pyListCall (kwargs : List (String × String)) :
    Except String (List (String × String)) :=
  match kwargs with
  | [] => Except.ok []
  | _ => Except.error "TypeError: list() takes no keyword arguments"

/-- Building `argument_spec` in `main` (source lines 190-196): the
entries are evaluated in order; the `members` entry calls the builtin
`list` with the keyword arguments `type='bool', elements='str'`. -/
def build_argument_spec :
    Except String (List (String × List (String × String))) := do
  let state ← pyDictCall [("type", "str"), ("choices", "online offline restart cleanup")]
  let node ← pyDictCall [("type", "str")]
  let timeout ← pyDictCall [("type", "int"), ("default", "300")]
  let force ← pyDictCall [("type", "bool"), ("default", "True")]
  let members ← pyListCall [("type", "bool"), ("elements", "str")]
  Except.ok [("state", state), ("node", node), ("timeout", timeout),
             ("force", force), ("members", members)]

/-- The call `set_cluster(module, state, timeout, members, force)` at
source line 216: `set_cluster` has four positional parameters, so this
five-argument call raises TypeError before `set_cluster` runs. -/
def set_cluster_badcall : M Unit :=
  pyErr "TypeError: set_cluster() takes 4 positional arguments but 5 were given"

/-- The `online`/`offline` branch of `main` (source lines 208-233).  In
the node-scoped `for` loop both branches terminate the run, so only the
first row is ever examined; an empty row list falls through the loop. -/
def main_onoff (w : World) (stateOpt nodeOpt : Option String)
    (timeout : Int) (force : Bool) : M Unit := do
  match stateOpt with
  | none => pure ()
  | some st =>
    if st == "online" || st == "offline" then
      match nodeOpt with
      | none => do
        let cluster_state ← get_cluster_status w
        if cluster_state == st then exitJ false (OutVal.str cluster_state)
        else do
          set_cluster_badcall
          let cluster_state2 ← get_cluster_status w
          if cluster_state2 == st then exitJ true (OutVal.str cluster_state2)
          else failJ ("Fail to bring the cluster " ++ st)
      | some nd => do
        let cluster_state ← get_node_status w nd
        match cluster_state with
        | [] => pure ()
        | row :: _ => do
          let rowState ← pyIdx row 1
          if pyLower (pyStrip rowState) == st then
            exitJ false (OutVal.rows cluster_state)
          else do
            set_cluster w st timeout force
            let cluster_state2 ← get_node_status w nd
            exitJ true (OutVal.rows cluster_state2)
    else pure ()

/-- The `restart` and `cleanup` branches of `main` (source lines
235-252). -/
def main_rest (w : World) (stateOpt : Option String) (timeout : Int)
    (force : Bool) : M Unit := do
  if stateOpt == some "restart" then do
    set_cluster w "offline" timeout force
    let cluster_state ← get_cluster_status w
    if cluster_state == "offline" then do
      set_cluster w "online" timeout force
      let cluster_state2 ← get_cluster_status w
      if cluster_state2 == "online" then exitJ true (OutVal.str cluster_state2)
      else failJ "Failed during the restart of the cluster, the cluster can't be started"
    else failJ "Failed during the restart of the cluster, the cluster can't be stopped"
  else if stateOpt == some "cleanup" then do
    clean_cluster w timeout
    let cluster_state ← get_cluster_status w
    exitJ true (OutVal.str cluster_state)
  else pure ()

/-- The dispatch logic of `main` after `AnsibleModule` construction
(source lines 203-252). -/
def mainRun (w : World) (stateOpt nodeOpt : Option String) (timeout : Int)
    (force : Bool) : M Unit := do
  main_onoff w stateOpt nodeOpt timeout force
  main_rest w stateOpt timeout force

/-- `main` (source lines 189-252): building `argument_spec` comes first
and its TypeError aborts the run before `AnsibleModule` is constructed;
otherwise the dispatch logic runs.  The `members` parameter read from
the module is only used by the five-argument `set_cluster` call modelled
in `set_cluster_badcall`. -/
def main (w : World) (stateOpt nodeOpt : Option String) (timeout : Int)
    (force : Bool) : M Unit :=
  match build_argument_spec with
  | Except.error e => pyErr e
  | Except.ok _ => mainRun w stateOpt nodeOpt timeout force

/-- Spec-style description, for the amended claim C6, of the commands
the dispatch loop of `set_node` issues: one command per row whose state
field differs from the target, each command extending the previous one
with the trimmed name of the new row. -/
def dispatchCmdsSpec (state : String) : List (List String) → String → List String
  | [], _ => []
  | row :: rest, cmd =>
    if pyLower (pyStrip (row.getD 1 "")) != state then
      (cmd ++ " " ++ pyStrip (row.getD 0 "")) ::
        dispatchCmdsSpec state rest (cmd ++ " " ++ pyStrip (row.getD 0 ""))
    else dispatchCmdsSpec state rest cmd

/-- A world whose every command returns success with empty output (the
empty output is classified `offline` by the cluster probe). -/
def wZero : World := ⟨fun _ => ⟨0, "", ""⟩, fun _ => 1⟩

/-- A world whose every command returns success with output `x` (an
output classified `online` by the cluster probe). -/
def wX : World := ⟨fun _ => ⟨0, "x", ""⟩, fun _ => 1⟩

/-- A world whose every command reports node `n1` online and node `n2`
offline. -/
def wTwoNodes : World :=
  ⟨fun _ => ⟨0, "n1: Online\nn2: Offline", ""⟩, fun _ => 1⟩

/-- A world whose every command fails with exit status 1 and output `x`. -/
def wErr : World := ⟨fun _ => ⟨1, "x", "boom"⟩, fun _ => 1⟩

/-- The successive outputs of the node-scoped scenario of claim C4. -/
def respC4 : Nat → String
  | 0 => "n1: Offline"
  | 4 => "x"
  | 5 => "n1: Online"
  | _ => ""

/-- The world of the node-scoped scenario of claim C4: the first node
probe reports `n1` offline, the convergence probe then observes the
cluster online, and the final node probe reports `n1` online. -/
def wC4 : World := ⟨fun i => ⟨0, respC4 i, ""⟩, fun _ => 1⟩

@[simp]
theorem bind_app {α β : Type} (x : M α) (f : α → M β) (s : St) :
    (x >>= f) s =
      match x s with
      | (Except.ok a, s1) => f a s1
      | (Except.error e, s1) => (Except.error e, s1) := rfl

@[simp]
theorem pure_app {α : Type} (a : α) (s : St) :
    (pure a : M α) s = (Except.ok a, s) := rfl

@[simp]
theorem ite_app {α : Type} (c : Prop) [Decidable c] (x y : M α) (s : St) :
    (if c then x else y) s = if c then x s else y s := by
  by_cases h : c <;> simp [h]

@[simp]
theorem runC_app (w : World) (cmd : String) (s : St) :
    runC w cmd s =
      (Except.ok (w.resp s.idx), ⟨s.idx + 1, s.log ++ [cmd], s.loops⟩) := rfl

@[simp]
theorem failJ_app {α : Type} (msg : String) (s : St) :
    (failJ msg : M α) s = (Except.error (Outcome.failJson msg), s) := rfl

@[simp]
theorem exitJ_app {α : Type} (changed : Bool) (out : OutVal) (s : St) :
    (exitJ changed out : M α) s = (Except.error (Outcome.exitJson changed out), s) := rfl

@[simp]
theorem pyErr_app {α : Type} (msg : String) (s : St) :
    (pyErr msg : M α) s = (Except.error (Outcome.pyError msg), s) := rfl

@[simp]
theorem newLoop_app (w : World) (timeout : Int) (s : St) :
    newLoop w timeout s =
      (Except.ok (if timeout ≤ 0 then 0 else w.pollBudget s.loops),
       ⟨s.idx, s.log, s.loops + 1⟩) := rfl

theorem get_cluster_status_eq (w : World) (s : St) :
    get_cluster_status w s =
      (Except.ok (statusOf (w.resp s.idx).out),
       ⟨s.idx + 1, s.log ++ ["pcs cluster status"], s.loops⟩) := by
  by_cases h : pyIn (w.resp s.idx).out PCS_CLUSTER_DOWN = true <;>
    simp [get_cluster_status, statusOf, h]

/-- C1: on every invocation `main` raises TypeError while building the
argument specification — the `members` entry calls the builtin `list`
with keyword arguments — before `AnsibleModule` construction, with the
command log still empty (no probe or transition command dispatched), so
no invocation produces a changed/out result. -/
theorem C1_main_always_raises (w : World) (stateOpt nodeOpt : Option String)
    (timeout : Int) (force : Bool) :
    main w stateOpt nodeOpt timeout force initSt =
      (Except.error (Outcome.pyError "TypeError: list() takes no keyword arguments"),
       initSt) ∧
      (main w stateOpt nodeOpt timeout force initSt).2.log = [] :=
  ⟨rfl, rfl⟩

/-- C2 is false as stated: the empty probe output does not contain the
marker string, yet `get_cluster_status` classifies it `offline` — the
source tests `out in _PCS_CLUSTER_DOWN`, the converse containment of
the one the claim describes. -/
theorem C2_cex :
    (get_cluster_status wZero initSt).1 = Except.ok "offline" ∧
      pyIn PCS_CLUSTER_DOWN "" = false :=
  ⟨rfl, rfl⟩

/-- C2 amended: the cluster-wide probe classifies the cluster `offline`
exactly when the probe output is a contiguous substring of the marker
string, so in particular empty output is Offline and an output properly
containing the marker is Online. -/
theorem C2_offline_iff_out_in_marker (w : World) (s : St) :
    (get_cluster_status w s).1 = Except.ok "offline" ↔
      pyIn (w.resp s.idx).out PCS_CLUSTER_DOWN = true := by
  rw [get_cluster_status_eq]
  unfold statusOf
  by_cases h : pyIn (w.resp s.idx).out PCS_CLUSTER_DOWN = true <;> simp [h]

/-- C3 (code-bug evidence): a cluster-scope request whose probed state
(offline, from empty output) differs from the target (online) reaches
the five-argument `set_cluster` call and raises TypeError: the
convergence loop is never invoked and no changed=true exit occurs. -/
theorem C3_cluster_transition_raises :
    mainRun wZero (some "online") none 300 true initSt =
      (Except.error (Outcome.pyError
         "TypeError: set_cluster() takes 4 positional arguments but 5 were given"),
       ⟨1, ["pcs cluster status"], 0⟩) :=
  rfl

/-- C10: the cluster-wide status probe depends only on the output text:
worlds agreeing on the probe output get the same classification
whatever the exit status and stderr are, and the classification is
always `online` or `offline` — never a failure. -/
theorem C10_probe_ignores_rc_err (w w2 : World) (s : St)
    (h : (w.resp s.idx).out = (w2.resp s.idx).out) :
    (get_cluster_status w s).1 = (get_cluster_status w2 s).1 ∧
      ((get_cluster_status w s).1 = Except.ok "offline" ∨
        (get_cluster_status w s).1 = Except.ok "online") := by
  rw [get_cluster_status_eq, get_cluster_status_eq, h]
  refine ⟨rfl, ?_⟩
  unfold statusOf
  by_cases hc : pyIn (w2.resp s.idx).out PCS_CLUSTER_DOWN = true <;> simp [hc]

/-- Witness for C10 at a concrete input: the probe gives the same
verdict on output `x` whether the queried command exited 0 or 1 with
stderr text or not. -/
theorem C10_witness :
    (get_cluster_status wErr initSt).1 = (get_cluster_status wX initSt).1 ∧
      ((get_cluster_status wErr initSt).1 = Except.ok "offline" ∨
        (get_cluster_status wErr initSt).1 = Except.ok "online") :=
  C10_probe_ignores_rc_err wErr wX initSt rfl

theorem get_node_status_eq (w : World) (node : String) (s : St)
    (hrc : (w.resp s.idx).rc ≠ 1) :
    get_node_status w node s =
      (Except.ok (parseRows (w.resp s.idx).out),
       ⟨s.idx + 1,
        s.log ++ [if node == "all" then "pcs cluster pcsd-status " ++ node
                  else "pcs cluster pcsd-status"],
        s.loops⟩) := by
  have h1 : ((w.resp s.idx).rc == 1) = false := by
    simp [hrc]
  by_cases hn : (node == "all") = true <;>
    simp [get_node_status, hn, h1, hrc]

/-- C9 is false as stated: with a world whose probe output would be
classified `online` (equal to the target), the module run still ends in
the argument-spec TypeError with an empty command log, not in a
changed=false exit. -/
theorem C9_cex :
    main wX (some "online") none 300 true initSt =
      (Except.error (Outcome.pyError "TypeError: list() takes no keyword arguments"),
       initSt) ∧
      statusOf (wX.resp 0).out = "online" :=
  ⟨rfl, rfl⟩

/-- C9 amended: in the dispatch logic that follows module construction
(unreachable in the current code only because of the argument-spec
TypeError), a cluster-scope request whose freshly probed state equals
the target exits immediately with changed=false, and the only command
dispatched is the status probe. -/
theorem C9_cluster_noop (w : World) (st : String) (timeout : Int) (force : Bool)
    (hst : st = "online" ∨ st = "offline")
    (hmatch : statusOf (w.resp 0).out = st) :
    mainRun w (some st) none timeout force initSt =
      (Except.error (Outcome.exitJson false (OutVal.str st)),
       ⟨1, ["pcs cluster status"], 0⟩) := by
  rcases hst with h | h <;> subst h <;>
    simp [mainRun, main_onoff, get_cluster_status_eq, hmatch, initSt]

/-- Witness for C9 at a concrete input: output `x` is classified
`online`, matching the target, and the dispatch logic exits
changed=false after the single probe. -/
theorem C9_witness :
    mainRun wX (some "online") none 300 true initSt =
      (Except.error (Outcome.exitJson false (OutVal.str "online")),
       ⟨1, ["pcs cluster status"], 0⟩) :=
  C9_cluster_noop wX "online" 300 true (Or.inl rfl) rfl

@[simp]
theorem pyIdx_app (row : List String) (i : Nat) (s : St) :
    pyIdx row i s =
      match row.get? i with
      | some v => (Except.ok v, s)
      | none => (Except.error (Outcome.pyError "IndexError: list index out of range"), s) := rfl

/-- C4 is false as stated: for the node-scoped request on `n1` needing a
transition, the run probes with a command that does not name `n1`,
dispatches the cluster-wide `pcs cluster start` (again not naming `n1`),
and reports the full status list — not a convergence scoped to that
single node. -/
theorem C4_cex :
    mainRun wC4 (some "online") (some "n1") 300 true initSt =
      (Except.error (Outcome.exitJson true (OutVal.rows [["n1", " Online"]])),
       ⟨6, ["pcs cluster pcsd-status", "pcs cluster status", "pcs", "pcs cluster start",
            "pcs cluster status", "pcs cluster pcsd-status"], 1⟩) ∧
      pyIn "n1" "pcs cluster start" = false ∧
      pyIn "n1" "pcs cluster pcsd-status" = false :=
  ⟨rfl, rfl, rfl⟩

/-- C4 amended: for a node-scoped request the controller probes via the
bare node-status command (which does not name the node), examines only
the first reported row; if that row matches the target it exits
changed=false with the full row list, and otherwise it runs the
cluster-wide `set_cluster` convergence, re-probes the node-status
command and exits changed=true with the full re-probed row list. -/
theorem C4_node_scope_behavior (w : World) (st nd : String) (timeout : Int)
    (force : Bool)
    (hst : st = "online" ∨ st = "offline") (hnd : (nd == "all") = false)
    (hrc0 : (w.resp 0).rc ≠ 1)
    (row : List String) (rest : List (List String))
    (hrows : parseRows (w.resp 0).out = row :: rest)
    (v : String) (hv : row.get? 1 = some v) :
    (pyLower (pyStrip v) = st →
       mainRun w (some st) (some nd) timeout force initSt =
         (Except.error (Outcome.exitJson false (OutVal.rows (row :: rest))),
          ⟨1, ["pcs cluster pcsd-status"], 0⟩)) ∧
    (pyLower (pyStrip v) ≠ st →
       mainRun w (some st) (some nd) timeout force initSt =
         (match set_cluster w st timeout force ⟨1, ["pcs cluster pcsd-status"], 0⟩ with
          | (Except.ok _, s2) =>
            match get_node_status w nd s2 with
            | (Except.ok rows2, s3) =>
              (Except.error (Outcome.exitJson true (OutVal.rows rows2)), s3)
            | (Except.error e, s3) => (Except.error e, s3)
          | (Except.error e, s2) => (Except.error e, s2))) := by
  have hguard : (st == "online" || st == "offline") = true := by
    rcases hst with h | h <;> simp [h]
  have hgn := get_node_status_eq w nd initSt hrc0
  simp [initSt, hnd, hrows] at hgn
  have hv2 : row[1]? = some v := by simpa using hv
  constructor
  · intro hcase
    simp [mainRun, main_onoff, hguard, hgn, hv2, hcase, initSt]
  · intro hcase
    simp [mainRun, main_onoff, hguard, hgn, hv2, hcase, initSt]
    rcases hsc : set_cluster w st timeout force ⟨1, ["pcs cluster pcsd-status"], 0⟩ with ⟨r2, s2⟩
    rcases r2 with e | a
    · simp
    · rcases hgn2 : get_node_status w nd s2 with ⟨r3, s3⟩
      rcases r3 with e3 | rows2 <;> simp [hgn2]

/-- Witness for C4 amended at a concrete input: the first row of the
probe matches the target, so the run exits changed=false with the full
two-row list after the single probe command. -/
theorem C4_witness :
    mainRun wTwoNodes (some "online") (some "n1") 300 true initSt =
      (Except.error (Outcome.exitJson false
         (OutVal.rows [["n1", " Online"], ["n2", " Offline"]])),
       ⟨1, ["pcs cluster pcsd-status"], 0⟩) :=
  (C4_node_scope_behavior wTwoNodes "online" "n1" 300 true (Or.inl rfl) rfl
      (by decide) ["n1", " Online"] [["n2", " Offline"]] rfl " Online" rfl).1 rfl

theorem pyIdx_eq_ok (row : List String) (i : Nat) (v : String) (s : St)
    (hv : row[i]? = some v) :
    pyIdx row i s = (Except.ok v, s) := by
  simp [pyIdx, List.get?_eq_getElem?, hv]

theorem pcsd_all_cmd :
    "pcs cluster pcsd-status " ++ "all" = "pcs cluster pcsd-status all" := rfl

theorem get_node_status_all_eq (w : World) (s : St)
    (hrc : (w.resp s.idx).rc ≠ 1) :
    get_node_status w "all" s =
      (Except.ok (parseRows (w.resp s.idx).out),
       ⟨s.idx + 1, s.log ++ ["pcs cluster pcsd-status all"], s.loops⟩) := by
  have h := get_node_status_eq w "all" s hrc
  simpa [pcsd_all_cmd] using h

theorem node_scan_eq (state : String) (rows : List (List String)) (s : St)
    (h : ∀ row ∈ rows, 2 ≤ row.length) :
    node_scan state rows s =
      (Except.ok (rows.any fun row => pyLower (pyStrip (row.getD 1 "")) == state),
       s) := by
  induction rows with
  | nil => simp [node_scan]
  | cons row rest ih =>
    have hlt : 1 < row.length := h row (by simp)
    have hv : row[1]? = some (row.getD 1 "") := by
      rw [List.getElem?_eq_getElem hlt, List.getD_eq_getElem row "" hlt]
    have hpy := pyIdx_eq_ok row 1 (row.getD 1 "") s hv
    have hrest := ih fun r hr => h r (List.mem_cons_of_mem _ hr)
    have hstep : node_scan state (row :: rest) s =
        (if (pyLower (pyStrip (row.getD 1 "")) == state) = true then (pure true : M Bool)
         else node_scan state rest) s := by
      show mBind (pyIdx row 1) _ s = _
      simp only [mBind, hpy]
    cases hb : pyLower (pyStrip (row.getD 1 "")) == state
    · have hnb : ¬((pyLower (pyStrip (row.getD 1 "")) == state) = true) := by
        rw [hb]; decide
      rw [hstep, if_neg hnb, hrest, List.any_cons, hb, Bool.false_or]
    · rw [hstep, if_pos hb, pure_app, List.any_cons, hb, Bool.true_or]

theorem set_node_poll_loop_eq (w : World) (state : String) (n : Nat)
    (hrc : ∀ i, (w.resp i).rc ≠ 1)
    (hlen : ∀ i, ∀ row ∈ parseRows (w.resp i).out, 2 ≤ row.length) :
    ∀ (ready : Bool) (s : St),
      set_node_poll_loop w state n ready s =
        (Except.ok (ready || ((List.range n).any fun i =>
           (parseRows (w.resp (s.idx + i)).out).any fun row =>
             pyLower (pyStrip (row.getD 1 "")) == state)),
         ⟨s.idx + n, s.log ++ List.replicate n "pcs cluster pcsd-status all",
          s.loops⟩) := by
  induction n with
  | zero => intro ready s; simp [set_node_poll_loop]
  | succ n ih =>
    intro ready s
    have hgn := get_node_status_all_eq w s (hrc s.idx)
    have hns := node_scan_eq state (parseRows (w.resp s.idx).out)
        ⟨s.idx + 1, s.log ++ ["pcs cluster pcsd-status all"], s.loops⟩ (hlen s.idx)
    have hrec := ih (ready || ((parseRows (w.resp s.idx).out).any fun row =>
        pyLower (pyStrip (row.getD 1 "")) == state))
        ⟨s.idx + 1, s.log ++ ["pcs cluster pcsd-status all"], s.loops⟩
    simp only [set_node_poll_loop, bind_app, hgn, hns, hrec]
    refine Prod.ext ?_ ?_
    · show Except.ok _ = Except.ok _
      congr 1
      rw [List.range_succ_eq_map, List.any_cons, List.any_map]
      have hfun : ((fun i => (parseRows (w.resp (s.idx + i)).out).any fun row =>
            pyLower (pyStrip (row.getD 1 "")) == state) ∘ Nat.succ) =
          fun i => (parseRows (w.resp (s.idx + 1 + i)).out).any fun row =>
            pyLower (pyStrip (row.getD 1 "")) == state := by
        funext i
        show (parseRows (w.resp (s.idx + Nat.succ i)).out).any _ = _
        have hi : s.idx + Nat.succ i = s.idx + 1 + i := by omega
        rw [hi]
      rw [hfun]
      simp [Bool.or_assoc]
    · show St.mk _ _ _ = St.mk _ _ _
      congr 1
      · omega
      · rw [List.replicate_succ, List.append_assoc]
        rfl

/-- C5 is false as stated: `set_node` succeeds although node `n2`
reports ` Offline` in every probe, because the polling scan stops at the
first matching row (`n1`); all-node agreement is not required. -/
theorem C5_cex :
    set_node wTwoNodes "online" 300 true "all" initSt =
      (Except.ok (),
       ⟨3, ["pcs cluster pcsd-status all", "pcs cluster start n2",
            "pcs cluster pcsd-status all"], 1⟩) ∧
      parseRows (wTwoNodes.resp 2).out = [["n1", " Online"], ["n2", " Offline"]] ∧
      pyLower (pyStrip " Offline") ≠ "online" :=
  ⟨rfl, rfl, by decide⟩

/-- C5 amended: the node-scoped polling phase always polls for its full
wall-clock budget, and it ends successfully exactly when at least one
poll observed at least one row in the target state; it does not require
every node to report the target, and otherwise it fails with the
timeout message. -/
theorem C5_poll_any_not_all (w : World) (state : String) (timeout : Int) (s : St)
    (hpos : 0 < timeout)
    (hrc : ∀ i, (w.resp i).rc ≠ 1)
    (hlen : ∀ i, ∀ row ∈ parseRows (w.resp i).out, 2 ≤ row.length) :
    ((set_node_poll w state timeout s).1 = Except.ok () ↔
       ∃ i < w.pollBudget s.loops,
         (parseRows (w.resp (s.idx + i)).out).any
           (fun row => pyLower (pyStrip (row.getD 1 "")) == state) = true) ∧
    (set_node_poll w state timeout s).2 =
      ⟨s.idx + w.pollBudget s.loops,
       s.log ++ List.replicate (w.pollBudget s.loops) "pcs cluster pcsd-status all",
       s.loops + 1⟩ ∧
    ((set_node_poll w state timeout s).1 = Except.ok () ∨
     (set_node_poll w state timeout s).1 =
       Except.error (Outcome.failJson (timeoutMsg state))) := by
  have hk : ¬ (timeout ≤ 0) := by omega
  have hloop := set_node_poll_loop_eq w state (w.pollBudget s.loops) hrc hlen false
      ⟨s.idx, s.log, s.loops + 1⟩
  have hrun : set_node_poll w state timeout s =
      ((if ((List.range (w.pollBudget s.loops)).any fun i =>
           (parseRows (w.resp (s.idx + i)).out).any fun row =>
             pyLower (pyStrip (row.getD 1 "")) == state) = true
        then (pure () : M Unit) else failJ (timeoutMsg state))
        ⟨s.idx + w.pollBudget s.loops,
         s.log ++ List.replicate (w.pollBudget s.loops) "pcs cluster pcsd-status all",
         s.loops + 1⟩) := by
    simp only [set_node_poll, bind_app, newLoop_app, if_neg hk, hloop, Bool.false_or]
  rw [hrun]
  cases hb : (List.range (w.pollBudget s.loops)).any fun i =>
      (parseRows (w.resp (s.idx + i)).out).any fun row =>
        pyLower (pyStrip (row.getD 1 "")) == state
  · rw [if_neg (by decide : ¬ (false = true))]
    refine ⟨?_, rfl, Or.inr rfl⟩
    constructor
    · intro h; simp [failJ] at h
    · rintro ⟨i, hi, hf⟩
      have hany : ((List.range (w.pollBudget s.loops)).any fun i =>
          (parseRows (w.resp (s.idx + i)).out).any fun row =>
            pyLower (pyStrip (row.getD 1 "")) == state) = true :=
        List.any_eq_true.mpr ⟨i, List.mem_range.mpr hi, hf⟩
      rw [hb] at hany
      simp at hany
  · rw [if_pos (rfl : (true : Bool) = true)]
    refine ⟨?_, rfl, Or.inl rfl⟩
    constructor
    · intro _
      rcases List.any_eq_true.mp hb with ⟨i, hmem, hf⟩
      exact ⟨i, List.mem_range.mp hmem, hf⟩
    · intro _; rfl

/-- Witness for C5 amended at a concrete input: with budget 1 and a
probe reporting `n1` online and `n2` offline, the polling phase
succeeds (row `n1` matches) after exactly one probe command. -/
theorem C5_witness :
    (set_node_poll wTwoNodes "online" 300 initSt).1 = Except.ok () ∧
      (set_node_poll wTwoNodes "online" 300 initSt).2 =
        ⟨1, ["pcs cluster pcsd-status all"], 1⟩ := by
  have h := C5_poll_any_not_all wTwoNodes "online" 300 initSt (by decide)
      (fun i => by change (0 : Int) ≠ 1; decide)
      (fun i => by
        change ∀ row ∈ parseRows "n1: Online\nn2: Offline", 2 ≤ row.length
        decide)
  exact ⟨h.1.mpr ⟨0, by decide, by decide⟩, h.2.1⟩

theorem dispatchCmdsSpec_length (state : String) :
    ∀ (rows : List (List String)) (base : String),
      (dispatchCmdsSpec state rows base).length =
        (rows.filter fun row => pyLower (pyStrip (row.getD 1 "")) != state).length := by
  intro rows
  induction rows with
  | nil => intro base; rfl
  | cons row rest ih =>
    intro base
    have hspec : dispatchCmdsSpec state (row :: rest) base =
        (if pyLower (pyStrip (row.getD 1 "")) != state then
           (base ++ " " ++ pyStrip (row.getD 0 "")) ::
             dispatchCmdsSpec state rest (base ++ " " ++ pyStrip (row.getD 0 ""))
         else dispatchCmdsSpec state rest base) := rfl
    rw [hspec, List.filter_cons]
    by_cases hbp : (pyLower (pyStrip (row.getD 1 "")) != state) = true
    · rw [if_pos hbp, if_pos hbp]
      simp [List.length_cons, ih]
    · rw [if_neg hbp, if_neg hbp]
      exact ih base

theorem set_node_dispatch_eq (w : World) (state : String)
    (hrc : ∀ i, (w.resp i).rc ≠ 1) :
    ∀ (rows : List (List String)) (base : String) (s : St),
      (∀ row ∈ rows, 2 ≤ row.length) →
      set_node_dispatch w state rows base s =
        (Except.ok ((dispatchCmdsSpec state rows base).getLastD base),
         ⟨s.idx + (dispatchCmdsSpec state rows base).length,
          s.log ++ dispatchCmdsSpec state rows base, s.loops⟩) := by
  intro rows
  induction rows with
  | nil => intro base s _; simp [set_node_dispatch, dispatchCmdsSpec]
  | cons row rest ih =>
    intro base s hlen
    have hlt1 : 1 < row.length := hlen row (by simp)
    have hlt0 : 0 < row.length := by omega
    have hv1 : row[1]? = some (row.getD 1 "") := by
      rw [List.getElem?_eq_getElem hlt1, List.getD_eq_getElem row "" hlt1]
    have hv0 : row[0]? = some (row.getD 0 "") := by
      rw [List.getElem?_eq_getElem hlt0, List.getD_eq_getElem row "" hlt0]
    have hrest : ∀ r ∈ rest, 2 ≤ r.length :=
      fun r hr => hlen r (List.mem_cons_of_mem _ hr)
    have hstep : set_node_dispatch w state (row :: rest) base s =
        (if (pyLower (pyStrip (row.getD 1 "")) != state) = true then
           ((do
             let rowName ← pyIdx row 0
             let cmd2 := base ++ " " ++ pyStrip rowName
             let r ← runC w cmd2
             if r.rc == 1 then failJ (cmdFailMsg cmd2 r.err)
             else set_node_dispatch w state rest cmd2) : M String)
         else set_node_dispatch w state rest base) s := by
      show mBind (pyIdx row 1) _ s = _
      simp only [mBind, pyIdx_eq_ok row 1 (row.getD 1 "") s hv1]
    have hspec : dispatchCmdsSpec state (row :: rest) base =
        (if pyLower (pyStrip (row.getD 1 "")) != state then
           (base ++ " " ++ pyStrip (row.getD 0 "")) ::
             dispatchCmdsSpec state rest (base ++ " " ++ pyStrip (row.getD 0 ""))
         else dispatchCmdsSpec state rest base) := rfl
    cases hb : pyLower (pyStrip (row.getD 1 "")) != state
    · have hnb : ¬((pyLower (pyStrip (row.getD 1 "")) != state) = true) := by
        rw [hb]; decide
      rw [hstep, if_neg hnb, hspec, if_neg hnb]
      exact ih base s hrest
    · have hrc1 : ¬(((w.resp s.idx).rc == 1) = true) := by simp [hrc s.idx]
      rw [hstep, if_pos hb, hspec, if_pos hb]
      have hstep2 : ((do
            let rowName ← pyIdx row 0
            let cmd2 := base ++ " " ++ pyStrip rowName
            let r ← runC w cmd2
            if r.rc == 1 then failJ (cmdFailMsg cmd2 r.err)
            else set_node_dispatch w state rest cmd2) : M String) s =
          set_node_dispatch w state rest (base ++ " " ++ pyStrip (row.getD 0 ""))
            ⟨s.idx + 1, s.log ++ [base ++ " " ++ pyStrip (row.getD 0 "")], s.loops⟩ := by
        show mBind (pyIdx row 0) _ s = _
        simp only [mBind, pyIdx_eq_ok row 0 (row.getD 0 "") s hv0, bind_app,
          runC_app, if_neg hrc1]
      rw [hstep2,
        ih (base ++ " " ++ pyStrip (row.getD 0 ""))
          ⟨s.idx + 1, s.log ++ [base ++ " " ++ pyStrip (row.getD 0 "")], s.loops⟩ hrest]
      refine Prod.ext ?_ ?_
      · show Except.ok _ = Except.ok _
        rw [List.getLastD_cons]
      · show St.mk _ _ _ = St.mk _ _ _
        congr 1
        · simp [List.length_cons]; omega
        · simp [List.append_assoc]

/-- C6 is false as stated: with two nodes `n1`, `n2` both differing from
the target, the second dispatched command is the accumulated
`pcs cluster start n1 n2`, naming both nodes rather than only the one
being transitioned. -/
theorem C6_cex :
    set_node_dispatch wZero "online" (parseRows "n1: Offline\nn2: Offline")
        "pcs cluster start" initSt =
      (Except.ok "pcs cluster start n1 n2",
       ⟨2, ["pcs cluster start n1", "pcs cluster start n1 n2"], 0⟩) ∧
      pyIn "n1" "pcs cluster start n1 n2" = true ∧
      pyIn "n2" "pcs cluster start n1 n2" = true :=
  ⟨rfl, rfl, rfl⟩

/-- C6 amended: the dispatch loop issues exactly one command per row
whose state field differs from the target (rows already matching never
trigger a command), but each command is the previous accumulated
command extended with the new node name, so the k-th command names the
first k differing nodes. -/
theorem C6_one_accumulated_cmd_per_differing_node (w : World) (state : String)
    (rows : List (List String)) (base : String) (s : St)
    (hrc : ∀ i, (w.resp i).rc ≠ 1)
    (hlen : ∀ row ∈ rows, 2 ≤ row.length) :
    set_node_dispatch w state rows base s =
      (Except.ok ((dispatchCmdsSpec state rows base).getLastD base),
       ⟨s.idx + (dispatchCmdsSpec state rows base).length,
        s.log ++ dispatchCmdsSpec state rows base, s.loops⟩) ∧
    (dispatchCmdsSpec state rows base).length =
      (rows.filter fun row => pyLower (pyStrip (row.getD 1 "")) != state).length :=
  ⟨set_node_dispatch_eq w state hrc rows base s hlen,
   dispatchCmdsSpec_length state rows base⟩

/-- Witness for C6 amended at a concrete input: of two rows only the
differing one (`n1`) triggers a command, matching the spec-side command
list. -/
theorem C6_witness :
    set_node_dispatch wZero "online" [["n1", " Offline"], ["n2", " Online"]]
        "pcs cluster start" initSt =
      (Except.ok "pcs cluster start n1", ⟨1, ["pcs cluster start n1"], 0⟩) ∧
      (dispatchCmdsSpec "online" [["n1", " Offline"], ["n2", " Online"]]
          "pcs cluster start").length =
        ([["n1", " Offline"], ["n2", " Online"]].filter
          (fun row => pyLower (pyStrip (row.getD 1 "")) != "online")).length := by
  have h := C6_one_accumulated_cmd_per_differing_node wZero "online"
      [["n1", " Offline"], ["n2", " Online"]] "pcs cluster start" initSt
      (fun i => by change (0 : Int) ≠ 1; decide) (by decide)
  exact ⟨h.1, h.2⟩

theorem set_cluster_poll_miss (w : World) (state : String)
    (hmiss : ∀ i, statusOf (w.resp i).out ≠ state) :
    ∀ (n : Nat) (s : St),
      set_cluster_poll w state n s =
        (Except.ok false,
         ⟨s.idx + n, s.log ++ List.replicate n "pcs cluster status", s.loops⟩) := by
  intro n
  induction n with
  | zero => intro s; simp [set_cluster_poll]
  | succ n ih =>
    intro s
    have hg := get_cluster_status_eq w s
    have hne : ¬((statusOf (w.resp s.idx).out == state) = true) := by
      simp [hmiss s.idx]
    simp only [set_cluster_poll, bind_app, hg, ite_app, if_neg hne, ih]
    refine Prod.ext rfl ?_
    show St.mk _ _ _ = St.mk _ _ _
    congr 1
    · omega
    · rw [List.replicate_succ, List.append_assoc]
      rfl

theorem set_cluster_finish_miss (w : World) (state : String) (timeout : Int)
    (cmd : String) (s : St)
    (hrc : ∀ i, (w.resp i).rc ≠ 1)
    (hmiss : ∀ i, statusOf (w.resp i).out ≠ state) :
    (set_cluster_finish w state timeout cmd s).1 =
      Except.error (Outcome.failJson (timeoutMsg state)) := by
  have hn : ¬(((w.resp s.idx).rc == 1) = true) := by simp [hrc s.idx]
  have hfalse : ¬((false : Bool) = true) := by decide
  simp only [set_cluster_finish, bind_app, runC_app, ite_app, if_neg hn, newLoop_app,
    set_cluster_poll_miss w state hmiss, if_neg hfalse, failJ_app]

/-- C8: when the transition command is accepted but repeated probing
never observes the target state before the deadline, `set_cluster`
fails with the timeout message naming the attempted target — it never
returns success. -/
theorem C8_timeout_never_success (w : World) (state : String) (timeout : Int)
    (force : Bool) (s : St)
    (hstate : state = "online" ∨ state = "offline")
    (hrc : ∀ i, (w.resp i).rc ≠ 1)
    (hmiss : ∀ i, statusOf (w.resp i).out ≠ state) :
    (set_cluster w state timeout force s).1 =
      Except.error (Outcome.failJson (timeoutMsg state)) := by
  rcases hstate with h | h <;> subst h
  · have hg := get_cluster_status_eq w s
    have hne : (statusOf (w.resp s.idx).out != "online") = true := by
      simpa using hmiss s.idx
    have htrue : ((("online" : String) == "online") || (("online" : String) == "offline")) = true := by
      decide
    simp only [set_cluster, bind_app, ite_app, if_pos (by decide : ((("online" : String) == "online") = true)),
      hg, if_pos hne, runC_app, pure_app]
    exact set_cluster_finish_miss w "online" timeout "pcs cluster start" _ hrc hmiss
  · simp only [set_cluster, bind_app, ite_app,
      if_neg (by decide : ¬((("offline" : String) == "online") = true)), pure_app,
      if_pos (by decide : ((("offline" : String) == "offline") = true))]
    exact set_cluster_finish_miss w "offline" timeout
      (if force then "pcs cluster stop --force" else "pcs cluster stop") s hrc hmiss

/-- Witness for C8 at a concrete input: every probe reports output `x`
(classified online), the target is offline, so `set_cluster` fails with
the timeout message for `offline`. -/
theorem C8_witness :
    (set_cluster wX "offline" 1 true initSt).1 =
      Except.error (Outcome.failJson (timeoutMsg "offline")) :=
  C8_timeout_never_success wX "offline" 1 true initSt (Or.inr rfl)
    (fun i => by change (0 : Int) ≠ 1; decide)
    (fun i => by change statusOf "x" ≠ "offline"; decide)

theorem set_cluster_poll_isOk (w : World) (state : String) :
    ∀ (n : Nat) (s : St), ∃ b s2, set_cluster_poll w state n s = (Except.ok b, s2) := by
  intro n
  induction n with
  | zero => intro s; exact ⟨false, s, rfl⟩
  | succ n ih =>
    intro s
    have hg := get_cluster_status_eq w s
    by_cases hc : ((statusOf (w.resp s.idx).out == state) = true)
    · exact ⟨true, ⟨s.idx + 1, s.log ++ ["pcs cluster status"], s.loops⟩,
        by simp only [set_cluster_poll, bind_app, hg, ite_app, if_pos hc, pure_app]⟩
    · rcases ih ⟨s.idx + 1, s.log ++ ["pcs cluster status"], s.loops⟩ with ⟨b, s2, hb⟩
      exact ⟨b, s2,
        by simp only [set_cluster_poll, bind_app, hg, ite_app, if_neg hc, hb]⟩

theorem set_cluster_poll_log (w : World) (state : String) :
    ∀ (n : Nat) (s : St), ∀ c ∈ (set_cluster_poll w state n s).2.log,
      c ∈ s.log ∨ c = "pcs cluster status" := by
  intro n
  induction n with
  | zero => intro s c hc; exact Or.inl (by simpa [set_cluster_poll] using hc)
  | succ n ih =>
    intro s c hc
    have hg := get_cluster_status_eq w s
    by_cases hcnd : ((statusOf (w.resp s.idx).out == state) = true)
    · simp only [set_cluster_poll, bind_app, hg, ite_app, if_pos hcnd, pure_app] at hc
      rcases List.mem_append.mp hc with h | h
      · exact Or.inl h
      · exact Or.inr (by simpa using h)
    · simp only [set_cluster_poll, bind_app, hg, ite_app, if_neg hcnd] at hc
      rcases ih ⟨s.idx + 1, s.log ++ ["pcs cluster status"], s.loops⟩ c hc with h | h
      · rcases List.mem_append.mp h with h2 | h2
        · exact Or.inl h2
        · exact Or.inr (by simpa using h2)
      · exact Or.inr h

theorem set_cluster_finish_fail_msgs (w : World) (state : String) (timeout : Int)
    (cmd : String) (s : St) (m : String) (s2 : St)
    (h : set_cluster_finish w state timeout cmd s =
      (Except.error (Outcome.failJson m), s2)) :
    m = timeoutMsg state ∨ ∃ e, m = cmdFailMsg cmd e := by
  by_cases hrc1 : (((w.resp s.idx).rc == 1) = true)
  · simp only [set_cluster_finish, bind_app, runC_app, ite_app, if_pos hrc1,
      failJ_app] at h
    have h1 := congrArg Prod.fst h
    simp only [Prod.fst] at h1
    have h2 : cmdFailMsg cmd (w.resp s.idx).err = m := by
      injection h1 with h3
      injection h3
    exact Or.inr ⟨(w.resp s.idx).err, h2.symm⟩
  · rcases set_cluster_poll_isOk w state (if timeout ≤ 0 then 0 else w.pollBudget s.loops)
        ⟨s.idx + 1, s.log ++ [cmd], s.loops + 1⟩ with ⟨b, s3, hb⟩
    simp only [set_cluster_finish, bind_app, runC_app, ite_app, if_neg hrc1,
      newLoop_app, hb] at h
    cases b
    · simp only [ite_app, if_neg (by decide : ¬((false : Bool) = true)), failJ_app] at h
      have h1 := congrArg Prod.fst h
      simp only [Prod.fst] at h1
      have h2 : timeoutMsg state = m := by
        injection h1 with h3
        injection h3
      exact Or.inl h2.symm
    · simp only [ite_app, if_pos (by decide : ((true : Bool) = true)), pure_app] at h
      exact absurd (congrArg Prod.fst h) (by simp)

theorem set_cluster_finish_log (w : World) (state : String) (timeout : Int)
    (cmd : String) (s : St) :
    ∀ c ∈ (set_cluster_finish w state timeout cmd s).2.log,
      c ∈ s.log ∨ c = cmd ∨ c = "pcs cluster status" := by
  intro c hc
  by_cases hrc1 : (((w.resp s.idx).rc == 1) = true)
  · simp only [set_cluster_finish, bind_app, runC_app, ite_app, if_pos hrc1,
      failJ_app] at hc
    rcases List.mem_append.mp hc with h | h
    · exact Or.inl h
    · exact Or.inr (Or.inl (by simpa using h))
  · rcases set_cluster_poll_isOk w state (if timeout ≤ 0 then 0 else w.pollBudget s.loops)
        ⟨s.idx + 1, s.log ++ [cmd], s.loops + 1⟩ with ⟨b, s3, hb⟩
    have hpl := set_cluster_poll_log w state (if timeout ≤ 0 then 0 else w.pollBudget s.loops)
        ⟨s.idx + 1, s.log ++ [cmd], s.loops + 1⟩ c
    rw [hb] at hpl
    simp only [set_cluster_finish, bind_app, runC_app, ite_app, if_neg hrc1,
      newLoop_app, hb] at hc
    have hmem : c ∈ s3.log → c ∈ s.log ∨ c = cmd ∨ c = "pcs cluster status" := by
      intro h3
      rcases hpl h3 with h | h
      · rcases List.mem_append.mp h with h2 | h2
        · exact Or.inl h2
        · exact Or.inr (Or.inl (by simpa using h2))
      · exact Or.inr (Or.inr h)
    cases b
    · simp only [ite_app, if_neg (by decide : ¬((false : Bool) = true)), failJ_app] at hc
      exact hmem hc
    · simp only [ite_app, if_pos (by decide : ((true : Bool) = true)), pure_app] at hc
      exact hmem hc

theorem set_cluster_offline_run (w : World) (timeout : Int) (force : Bool) (s : St) :
    set_cluster w "offline" timeout force s =
      set_cluster_finish w "offline" timeout
        (if force then "pcs cluster stop --force" else "pcs cluster stop") s := by
  simp only [set_cluster, bind_app, ite_app,
    if_neg (by decide : ¬((("offline" : String) == "online") = true)), pure_app,
    if_pos (by decide : ((("offline" : String) == "offline") = true))]

theorem set_cluster_online_fail_msgs (w : World) (timeout : Int) (force : Bool)
    (s : St) (m : String) (s2 : St)
    (h : set_cluster w "online" timeout force s =
      (Except.error (Outcome.failJson m), s2)) :
    m = timeoutMsg "online" ∨ ∃ e, m = cmdFailMsg "pcs cluster start" e := by
  have hg := get_cluster_status_eq w s
  by_cases hpre : ((statusOf (w.resp s.idx).out != "online") = true)
  · simp only [set_cluster, bind_app, ite_app,
      if_pos (by decide : ((("online" : String) == "online") = true)), hg, if_pos hpre,
      runC_app, pure_app] at h
    exact set_cluster_finish_fail_msgs w "online" timeout "pcs cluster start" _ m s2 h
  · simp only [set_cluster, bind_app, ite_app,
      if_pos (by decide : ((("online" : String) == "online") = true)), hg, if_neg hpre,
      pure_app] at h
    exact set_cluster_finish_fail_msgs w "online" timeout "pcs cluster start" _ m s2 h

theorem cmdFailMsg_head (c e : String) :
    (cmdFailMsg c e).data.head? = some 'C' := rfl

theorem ne_of_head_ne (a b : String) (ha : a.data.head? = some 'C')
    (hb : b.data.head? = some 'F') : a ≠ b := by
  intro h
  rw [h, hb] at ha
  exact absurd ha (by decide)

/-- C7: in a restart request, a failing offline phase terminates the
run with exactly that failure and no start command is ever dispatched;
a failure arising after a fully successful offline phase (convergence
succeeded and the re-probe confirmed offline) carries one of the
online-phase messages, each distinct from the offline-phase failure
messages. -/
theorem C7_restart_two_phase (w : World) (timeout : Int) (force : Bool) :
    (∀ e s1, set_cluster w "offline" timeout force initSt = (Except.error e, s1) →
       mainRun w (some "restart") none timeout force initSt = (Except.error e, s1) ∧
         ∀ c ∈ s1.log, c ≠ "pcs cluster start") ∧
    (∀ s1, set_cluster w "offline" timeout force initSt = (Except.ok (), s1) →
       statusOf (w.resp s1.idx).out = "offline" →
       ∀ m s3, mainRun w (some "restart") none timeout force initSt =
           (Except.error (Outcome.failJson m), s3) →
         (m = "Failed during the restart of the cluster, the cluster can't be started" ∨
            m = timeoutMsg "online" ∨ ∃ e, m = cmdFailMsg "pcs cluster start" e) ∧
           m ≠ "Failed during the restart of the cluster, the cluster can't be stopped" ∧
           m ≠ timeoutMsg "offline") := by
  have hon : main_onoff w (some "restart") none timeout force initSt =
      (Except.ok (), initSt) := by
    simp only [main_onoff, ite_app,
      if_neg (by decide :
        ¬(((("restart" : String) == "online") || (("restart" : String) == "offline")) = true)),
      pure_app]
  have hTrue : (((some "restart" : Option String)) == some "restart") = true := by decide
  constructor
  · intro e s1 hsc
    constructor
    · simp only [mainRun, bind_app, hon, main_rest, ite_app, if_pos hTrue, hsc]
    · have hl := set_cluster_finish_log w "offline" timeout
        (if force then "pcs cluster stop --force" else "pcs cluster stop") initSt
      rw [← set_cluster_offline_run w timeout force initSt, hsc] at hl
      intro c hc
      rcases hl c hc with h | h | h
      · exact absurd h (List.not_mem_nil c)
      · subst h
        by_cases hf : force
        · rw [if_pos hf]; decide
        · rw [if_neg hf]; decide
      · subst h; decide
  · intro s1 hsc hprobe m s3 hrun
    have hg1 := get_cluster_status_eq w s1
    rw [hprobe] at hg1
    simp only [mainRun, bind_app, hon, main_rest, ite_app, if_pos hTrue, hsc, hg1,
      if_pos (by decide : ((("offline" : String) == "offline") = true))] at hrun
    rcases hsc2 : set_cluster w "online" timeout force
        ⟨s1.idx + 1, s1.log ++ ["pcs cluster status"], s1.loops⟩ with ⟨r2, s4⟩
    rcases r2 with e2 | u2
    · rw [hsc2] at hrun
      have h1 := congrArg Prod.fst hrun
      simp only [Prod.fst] at h1
      have h2 : e2 = Outcome.failJson m := by injection h1
      rw [h2] at hsc2
      rcases set_cluster_online_fail_msgs w timeout force _ m s4 hsc2 with h | ⟨e, he⟩
      · subst h
        refine ⟨Or.inr (Or.inl rfl), by decide, by decide⟩
      · subst he
        refine ⟨Or.inr (Or.inr ⟨e, rfl⟩), ?_, ?_⟩
        · exact ne_of_head_ne _ _ (cmdFailMsg_head _ _) rfl
        · exact ne_of_head_ne _ _ (cmdFailMsg_head _ _) rfl
    · have hg2 := get_cluster_status_eq w s4
      rw [hsc2] at hrun
      by_cases hon2 : ((statusOf (w.resp s4.idx).out == "online") = true)
      · simp only [bind_app, hg2, ite_app, if_pos hon2, exitJ_app] at hrun
        have h1 := congrArg Prod.fst hrun
        simp only [Prod.fst] at h1
        have h2 : Outcome.exitJson true
            (OutVal.str (statusOf (w.resp s4.idx).out)) = Outcome.failJson m := by
          injection h1
        exact absurd h2 (by simp)
      · simp only [bind_app, hg2, ite_app, if_neg hon2, failJ_app] at hrun
        have h1 := congrArg Prod.fst hrun
        simp only [Prod.fst] at h1
        have h2 : ("Failed during the restart of the cluster, the cluster can't be started"
            : String) = m := by
          injection h1 with h3
          injection h3
        subst h2
        refine ⟨Or.inl rfl, by decide, by decide⟩

/-- Witness for C7 at a concrete input: every probe reports `x`
(classified online), so the offline phase times out; the restart run
ends with exactly that offline-phase failure, having dispatched only
the forced stop command and the status probe — no start command. -/
theorem C7_witness :
    mainRun wX (some "restart") none 1 true initSt =
      (Except.error (Outcome.failJson (timeoutMsg "offline")),
       ⟨2, ["pcs cluster stop --force", "pcs cluster status"], 1⟩) :=
  ((C7_restart_two_phase wX 1 true).1 (Outcome.failJson (timeoutMsg "offline"))
    ⟨2, ["pcs cluster stop --force", "pcs cluster status"], 1⟩ rfl).1

end PacemakerCluster
